import Mathlib

set_option maxHeartbeats 1000000

/-!
# Verification of the rust-lidar-buffer repository

A shallow embedding of the Velodyne decode-and-project pipeline and the
Ouster configuration helpers, with theorems checking the repository's
specification against the code.

Conventions: machine floats (`f64` angles, lengths and durations) are
modelled as real numbers; `u16`/`u8`/`u64` payload integers as `ℕ`;
`Vec<T>` and fixed-size arrays as `List T`; fallible operations as
`Option`/`Except`.
-/

namespace Lidar

/-! ## Batcher (src/velodyne-lidar/src/batcher.rs)

`Batcher<E: AzimuthRange>` is generic; the `AzimuthRange` bound is
represented by a projection `startAz : E → α` into a linearly ordered
azimuth type. -/

/-- `struct Batcher<E> { buffer: Vec<E> }`. -/
structure Batcher (E : Type) where
  buffer : List E

/-- `Batcher::new` (same as `Default`): the empty buffer. -/
def Batcher.new {E : Type} : Batcher E := ⟨[]⟩

/-- `Batcher::push_one`: the Rust guard
`matches!(buffer.last(), Some(prev) if prev.start_azimuth() > firing.start_azimuth())`
is rendered as a match on `getLast?` with the comparison inside. On a wrap the
buffer is emitted and replaced by `[firing]`; otherwise `firing` is appended
and nothing is emitted. -/
def Batcher.push_one {E α : Type} [LinearOrder α] (startAz : E → α)
    (b : Batcher E) (firing : E) : Option (List E) × Batcher E :=
  match b.buffer.getLast? with
  | some prev =>
    if startAz prev > startAz firing then (some b.buffer, ⟨[firing]⟩)
    else (none, ⟨b.buffer ++ [firing]⟩)
  | none => (none, ⟨b.buffer ++ [firing]⟩)

/-- `Batcher::take`: return the buffer if non-empty, emptying it. -/
def Batcher.take {E : Type} (b : Batcher E) : Option (List E) × Batcher E :=
  (if b.buffer.isEmpty then none else some b.buffer, ⟨[]⟩)

/-- Push a list of elements in order, collecting the emitted frames
(Rust `push_many`, which `filter_map`s `push_one` over the input). -/
def Batcher.pushList {E α : Type} [LinearOrder α] (startAz : E → α)
    (b : Batcher E) : List E → List (List E) × Batcher E
  | [] => ([], b)
  | f :: rest =>
    let step := b.push_one startAz f
    let next := step.2.pushList startAz rest
    (step.1.toList ++ next.1, next.2)

/-- `Batcher::with_iter`: stream the input through `push_one`, then flush
with `take` at end of input; the `flatten` drops the `None`s. -/
def Batcher.withIter {E α : Type} [LinearOrder α] (startAz : E → α)
    (b : Batcher E) (l : List E) : List (List E) :=
  let s := b.pushList startAz l
  s.1 ++ s.2.take.1.toList

/-- Number of adjacent strict start-azimuth drops in a list (the interior
revolution boundaries the batcher reacts to). -/
def dropCount {E α : Type} [LinearOrder α] (startAz : E → α) : List E → ℕ
  | [] => 0
  | [_] => 0
  | a :: b :: rest =>
    (if startAz b < startAz a then 1 else 0) + dropCount startAz (b :: rest)

/-! ## Ouster integer-coded booleans (src/src/ouster/client.rs) -/

/-- `ser_bool_to_int`: `true ↦ 1`, `false ↦ 0` (written as `u64`,
modelled as `ℕ`). -/
def ser_bool_to_int (value : Bool) : ℕ :=
  match value with
  | true => 1
  | false => 0

/-- `de_bool_from_int`: `1 ↦ true`, `0 ↦ false`, every other integer is an
invalid value ("Expect 0 or 1"). -/
def de_bool_from_int (n : ℕ) : Except String Bool :=
  match n with
  | 1 => .ok true
  | 0 => .ok false
  | _ => .error "Expect 0 or 1"

/-! ## Velodyne converter (src/velodyne-lidar/src/converter.rs)

Angles are radians, lengths meters, durations microseconds, all as `ℝ`. -/

/-- Modelled from the spec: `FIRING_PERIOD` = 55.296 µs (consts.rs is not
among the provided sources). -/
noncomputable def FIRING_PERIOD : ℝ := 55296 / 1000

/-- Modelled from the spec: `CHANNEL_PERIOD` = 2.304 µs (consts.rs is not
among the provided sources). -/
noncomputable def CHANNEL_PERIOD : ℝ := 2304 / 1000

/-- Modelled from the spec: `AngleExt::wrap_to_2pi` (utils.rs is not among
the provided sources) normalizes an angle into `[0°, 360°)`, i.e. `[0, 2π)`:
subtract the whole number of full turns. -/
noncomputable def wrap_to_2pi (x : ℝ) : ℝ :=
  x - 2 * Real.pi * ⌊x / (2 * Real.pi)⌋

/-- Per-beam calibration `LaserParameter`, fields as destructured in
converter.rs. -/
structure LaserParameter where
  elevation : ℝ
  azimuth_offset : ℝ
  vertical_offset : ℝ
  horizontal_offset : ℝ

/-- `Channel { distance: u16, intensity: u8 }`. -/
structure Channel where
  distance : ℕ
  intensity : ℕ

/-- `Range<Angle>`; the field `stop` models Rust's `end` (a Lean keyword). -/
structure ARange where
  start : ℝ
  stop : ℝ

/-- Modelled from the spec: input firing `FiringSingle16` (firing.rs is not
among the provided sources); fields as destructured by
`firing_single_16_to_xyz`, with the block reference represented by the
`azimuth_count` the converter reads from it. -/
structure FiringSingle16 where
  time : ℝ
  azimuth_range : ARange
  channels : List Channel
  block_azimuth_count : ℕ

/-- Modelled from the spec: input firing `FiringSingle32`, as destructured by
`firing_single_32_to_xyz`. -/
structure FiringSingle32 where
  time : ℝ
  azimuth_range : ARange
  channels : List Channel
  block_azimuth_count : ℕ

/-- Modelled from the spec: input firing `FiringDual16` (strongest/last
channel pair), as destructured by `firing_dual_16_to_xyz`. -/
structure FiringDual16 where
  time : ℝ
  azimuth_range : ARange
  channels_strongest : List Channel
  channels_last : List Channel
  block_strongest_azimuth_count : ℕ

/-- Modelled from the spec: input firing `FiringDual32`, as destructured by
`firing_dual_32_to_xyz`. -/
structure FiringDual32 where
  time : ℝ
  azimuth_range : ARange
  channels_strongest : List Channel
  channels_last : List Channel
  block_strongest_azimuth_count : ℕ

/-- A single-return `Measurement { distance, intensity, xyz }`. -/
structure Measurement where
  distance : ℝ
  intensity : ℕ
  xyz : List ℝ

/-- `PointSingle`, as constructed in converter.rs. -/
structure PointSingle where
  laser_id : ℕ
  time : ℝ
  azimuth : ℝ
  measurement : Measurement

/-- `MeasurementDual { strongest, last }`. -/
structure MeasurementDual where
  strongest : Measurement
  last : Measurement

/-- `PointDual`, as constructed in converter.rs. -/
structure PointDual where
  laser_id : ℕ
  time : ℝ
  azimuth : ℝ
  measurements : MeasurementDual

/-- Projected firing `FiringXyzSingle16`, fields as constructed by
`firing_single_16_to_xyz` (the fixed-size point array is a list here). -/
structure FiringXyzSingle16 where
  time : ℝ
  azimuth_count : ℕ
  azimuth_range : ARange
  points : List PointSingle

/-- Projected firing `FiringXyzSingle32`. -/
structure FiringXyzSingle32 where
  time : ℝ
  azimuth_count : ℕ
  azimuth_range : ARange
  points : List PointSingle

/-- Projected firing `FiringXyzDual16`. -/
structure FiringXyzDual16 where
  time : ℝ
  azimuth_count : ℕ
  azimuth_range : ARange
  points : List PointDual

/-- Projected firing `FiringXyzDual32`. -/
structure FiringXyzDual32 where
  time : ℝ
  azimuth_count : ℕ
  azimuth_range : ARange
  points : List PointDual

/-- `spherical_to_xyz` (converter.rs, lines 730–745). -/
noncomputable def spherical_to_xyz (distance elevation azimuth vertical_offset
    horizontal_offset : ℝ) : List ℝ :=
  let distance_plane :=
    distance * Real.cos elevation - vertical_offset * Real.sin elevation
  let x := distance_plane * Real.sin azimuth - horizontal_offset * Real.cos azimuth
  let y := distance_plane * Real.cos azimuth + horizontal_offset * Real.sin azimuth
  let z := distance * Real.sin elevation + vertical_offset * Real.cos elevation
  [x, y, z]

/-- The channel-time stream
`iter::successors(Some(firing_time), |&prev| Some(prev + CHANNEL_PERIOD))`
read at index `k`. -/
noncomputable def channelTime16 (firing_time : ℝ) : ℕ → ℝ
  | 0 => firing_time
  | k + 1 => channelTime16 firing_time k + CHANNEL_PERIOD

/-- The 32-beam channel-time stream: the successors stream with each element
doubled by `.flat_map(|time| [time, time])`; index `k` therefore reads
element `k / 2` of the undoubled stream. -/
noncomputable def channelTime32 (firing_time : ℝ) (k : ℕ) : ℝ :=
  channelTime16 firing_time (k / 2)

/-- The per-channel closure body of the single-return conversions:
interpolated azimuth, scaled distance, and the projected point. -/
noncomputable def mkPointSingle (firing_time azStart azStop
    distance_resolution : ℝ) (laser_id : ℕ) (channel_time : ℝ)
    (channel : Channel) (laser : LaserParameter) : PointSingle :=
  let r := (channel_time - firing_time) / FIRING_PERIOD
  let azimuth :=
    wrap_to_2pi (azStart + (azStop - azStart) * r + laser.azimuth_offset)
  let distance := distance_resolution * (channel.distance : ℝ)
  { laser_id := laser_id
    time := channel_time
    azimuth := azimuth
    measurement :=
      { distance := distance
        intensity := channel.intensity
        xyz := spherical_to_xyz distance laser.elevation azimuth
          laser.vertical_offset laser.horizontal_offset } }

/-- The per-channel closure body of the dual-return conversions: one shared
time/azimuth, two measurements. -/
noncomputable def mkPointDual (firing_time azStart azStop
    distance_resolution : ℝ) (laser_id : ℕ) (channel_time : ℝ)
    (channel_strongest channel_last : Channel)
    (laser : LaserParameter) : PointDual :=
  let r := (channel_time - firing_time) / FIRING_PERIOD
  let azimuth :=
    wrap_to_2pi (azStart + (azStop - azStart) * r + laser.azimuth_offset)
  let distance_strongest := distance_resolution * (channel_strongest.distance : ℝ)
  let distance_last := distance_resolution * (channel_last.distance : ℝ)
  { laser_id := laser_id
    time := channel_time
    azimuth := azimuth
    measurements :=
      { strongest :=
          { distance := distance_strongest
            intensity := channel_strongest.intensity
            xyz := spherical_to_xyz distance_strongest laser.elevation azimuth
              laser.vertical_offset laser.horizontal_offset }
        last :=
          { distance := distance_last
            intensity := channel_last.intensity
            xyz := spherical_to_xyz distance_last laser.elevation azimuth
              laser.vertical_offset laser.horizontal_offset } } }

/-- `izip!(0.., channel_times, channels, lasers).map(...)` of the
single-return conversions, with `k` the running laser id: the zip stops at
the shorter of the two lists. -/
noncomputable def zipPointsSingle (firing_time azStart azStop
    distance_resolution : ℝ) (ct : ℕ → ℝ) :
    ℕ → List Channel → List LaserParameter → List PointSingle
  | _, [], _ => []
  | _, _ :: _, [] => []
  | k, ch :: chs, laser :: ls =>
    mkPointSingle firing_time azStart azStop distance_resolution k (ct k)
        ch laser ::
      zipPointsSingle firing_time azStart azStop distance_resolution ct
        (k + 1) chs ls

/-- `izip!(0.., channel_times, channels_strongest, channels_last, lasers)`
of the dual-return conversions. -/
noncomputable def zipPointsDual (firing_time azStart azStop
    distance_resolution : ℝ) (ct : ℕ → ℝ) :
    ℕ → List Channel → List Channel → List LaserParameter → List PointDual
  | _, [], _, _ => []
  | _, _ :: _, [], _ => []
  | _, _ :: _, _ :: _, [] => []
  | k, cs :: css, cl :: cls, laser :: ls =>
    mkPointDual firing_time azStart azStop distance_resolution k (ct k)
        cs cl laser ::
      zipPointsDual firing_time azStart azStop distance_resolution ct
        (k + 1) css cls ls

/-- `firing_single_16_to_xyz` (converter.rs, lines 416–478). -/
noncomputable def firing_single_16_to_xyz (firing : FiringSingle16)
    (distance_resolution : ℝ) (lasers : List LaserParameter) :
    FiringXyzSingle16 :=
  { time := firing.time
    azimuth_count := firing.block_azimuth_count
    azimuth_range := firing.azimuth_range
    points := zipPointsSingle firing.time firing.azimuth_range.start
      firing.azimuth_range.stop distance_resolution
      (channelTime16 firing.time) 0 firing.channels lasers }

/-- `firing_single_32_to_xyz` (converter.rs, lines 480–546): identical to
the 16-beam case except for the doubled channel-time stream. -/
noncomputable def firing_single_32_to_xyz (firing : FiringSingle32)
    (distance_resolution : ℝ) (lasers : List LaserParameter) :
    FiringXyzSingle32 :=
  { time := firing.time
    azimuth_count := firing.block_azimuth_count
    azimuth_range := firing.azimuth_range
    points := zipPointsSingle firing.time firing.azimuth_range.start
      firing.azimuth_range.stop distance_resolution
      (channelTime32 firing.time) 0 firing.channels lasers }

/-- `firing_dual_16_to_xyz` (converter.rs, lines 548–635). -/
noncomputable def firing_dual_16_to_xyz (firing : FiringDual16)
    (distance_resolution : ℝ) (lasers : List LaserParameter) :
    FiringXyzDual16 :=
  { time := firing.time
    azimuth_count := firing.block_strongest_azimuth_count
    azimuth_range := firing.azimuth_range
    points := zipPointsDual firing.time firing.azimuth_range.start
      firing.azimuth_range.stop distance_resolution
      (channelTime16 firing.time) 0 firing.channels_strongest
      firing.channels_last lasers }

/-- `firing_dual_32_to_xyz` (converter.rs, lines 637–728). -/
noncomputable def firing_dual_32_to_xyz (firing : FiringDual32)
    (distance_resolution : ℝ) (lasers : List LaserParameter) :
    FiringXyzDual32 :=
  { time := firing.time
    azimuth_count := firing.block_strongest_azimuth_count
    azimuth_range := firing.azimuth_range
    points := zipPointsDual firing.time firing.azimuth_range.start
      firing.azimuth_range.stop distance_resolution
      (channelTime32 firing.time) 0 firing.channels_strongest
      firing.channels_last lasers }

/-! ## Format-polymorphic dispatch and configuration
(converter.rs `mod kind`; Config modelled from the spec, config.rs not being
among the provided sources). -/

/-- The four (return mode × beam count) firing formats. -/
inductive FiringFormat where
  | Single16
  | Single32
  | Dual16
  | Dual32
  deriving DecidableEq

/-- Modelled from the spec: the packet tail's return-mode tag
(config.rs / packet.rs are not among the provided sources). -/
inductive ReturnMode where
  | Strongest
  | Last
  | Dual
  deriving DecidableEq

/-- Modelled from the spec: the product id is abstracted to the beam count
(16 or 32) it identifies. -/
inductive ProductId where
  | beam16
  | beam32
  deriving DecidableEq

/-- `Config`: laser table, distance resolution, return mode and product id
(spec §3). -/
structure Config where
  lasers : List LaserParameter
  distance_resolution : ℝ
  return_mode : ReturnMode
  product_id : ProductId

/-- Modelled from the spec: the derived `Config::firing_format()` collapses
`(return_mode, product_id)` to one of the four variants. -/
def Config.firing_format (c : Config) : FiringFormat :=
  match c.return_mode, c.product_id with
  | .Dual, .beam16 => .Dual16
  | .Dual, .beam32 => .Dual32
  | _, .beam16 => .Single16
  | _, .beam32 => .Single32

/-- Beam count of each firing format (length of its laser array). -/
def FiringFormat.beamCount : FiringFormat → ℕ
  | .Single16 => 16
  | .Dual16 => 16
  | .Single32 => 32
  | .Dual32 => 32

/-- `ConverterSingle16 { lasers: [LaserParameter; 16], distance_resolution }`;
the fixed-size laser array is a list whose length is enforced at
construction by `from_config`. -/
structure ConverterSingle16 where
  lasers : List LaserParameter
  distance_resolution : ℝ

/-- `ConverterSingle32`. -/
structure ConverterSingle32 where
  lasers : List LaserParameter
  distance_resolution : ℝ

/-- `ConverterDual16`. -/
structure ConverterDual16 where
  lasers : List LaserParameter
  distance_resolution : ℝ

/-- `ConverterDual32`. -/
structure ConverterDual32 where
  lasers : List LaserParameter
  distance_resolution : ℝ

/-- `ConverterSingle16::firing_to_firing_xyz`. -/
noncomputable def ConverterSingle16.firing_to_firing_xyz
    (c : ConverterSingle16) (firing : FiringSingle16) : FiringXyzSingle16 :=
  firing_single_16_to_xyz firing c.distance_resolution c.lasers

/-- `ConverterSingle32::firing_to_firing_xyz`. -/
noncomputable def ConverterSingle32.firing_to_firing_xyz
    (c : ConverterSingle32) (firing : FiringSingle32) : FiringXyzSingle32 :=
  firing_single_32_to_xyz firing c.distance_resolution c.lasers

/-- `ConverterDual16::firing_to_firing_xyz`. -/
noncomputable def ConverterDual16.firing_to_firing_xyz
    (c : ConverterDual16) (firing : FiringDual16) : FiringXyzDual16 :=
  firing_dual_16_to_xyz firing c.distance_resolution c.lasers

/-- `ConverterDual32::firing_to_firing_xyz`. -/
noncomputable def ConverterDual32.firing_to_firing_xyz
    (c : ConverterDual32) (firing : FiringDual32) : FiringXyzDual32 :=
  firing_dual_32_to_xyz firing c.distance_resolution c.lasers

/-- `enum ConverterKind` (converter.rs, lines 164–170). -/
inductive ConverterKind where
  | Single16 : ConverterSingle16 → ConverterKind
  | Single32 : ConverterSingle32 → ConverterKind
  | Dual16 : ConverterDual16 → ConverterKind
  | Dual32 : ConverterDual32 → ConverterKind

/-- `ConverterKind::firing_format` (converter.rs, lines 197–206). -/
def ConverterKind.firing_format : ConverterKind → FiringFormat
  | .Single16 _ => .Single16
  | .Single32 _ => .Single32
  | .Dual16 _ => .Dual16
  | .Dual32 _ => .Dual32

/-- `ConverterKind::from_config` (converter.rs, lines 326–360): dispatch on
the firing format; `lasers.try_into()` into the fixed-size array succeeds
exactly when the list length matches the beam count, otherwise the
"invalid laser parameters" error is returned. The distance resolution is
passed through without validation. -/
def ConverterKind.from_config (config : Config) : Except String ConverterKind :=
  match config.firing_format with
  | .Single16 =>
    if config.lasers.length = 16 then
      .ok (.Single16 ⟨config.lasers, config.distance_resolution⟩)
    else .error "invalid laser parameters"
  | .Dual16 =>
    if config.lasers.length = 16 then
      .ok (.Dual16 ⟨config.lasers, config.distance_resolution⟩)
    else .error "invalid laser parameters"
  | .Single32 =>
    if config.lasers.length = 32 then
      .ok (.Single32 ⟨config.lasers, config.distance_resolution⟩)
    else .error "invalid laser parameters"
  | .Dual32 =>
    if config.lasers.length = 32 then
      .ok (.Dual32 ⟨config.lasers, config.distance_resolution⟩)
    else .error "invalid laser parameters"

/-- Model helper: the laser table carried by a converter. -/
def ConverterKind.lasersOf : ConverterKind → List LaserParameter
  | .Single16 c => c.lasers
  | .Single32 c => c.lasers
  | .Dual16 c => c.lasers
  | .Dual32 c => c.lasers

/-- Model helper: the distance resolution carried by a converter. -/
def ConverterKind.resolutionOf : ConverterKind → ℝ
  | .Single16 c => c.distance_resolution
  | .Single32 c => c.distance_resolution
  | .Dual16 c => c.distance_resolution
  | .Dual32 c => c.distance_resolution

/-- `FiringKind`: the tagged union of the four firing variants. -/
inductive FiringKind where
  | Single16 : FiringSingle16 → FiringKind
  | Single32 : FiringSingle32 → FiringKind
  | Dual16 : FiringDual16 → FiringKind
  | Dual32 : FiringDual32 → FiringKind

/-- Format tag of a firing. -/
def FiringKind.format : FiringKind → FiringFormat
  | .Single16 _ => .Single16
  | .Single32 _ => .Single32
  | .Dual16 _ => .Dual16
  | .Dual32 _ => .Dual32

/-- `FiringXyzKind`: the tagged union of the four projected-firing variants. -/
inductive FiringXyzKind where
  | Single16 : FiringXyzSingle16 → FiringXyzKind
  | Single32 : FiringXyzSingle32 → FiringXyzKind
  | Dual16 : FiringXyzDual16 → FiringXyzKind
  | Dual32 : FiringXyzDual32 → FiringXyzKind

/-- Format tag of a projected firing. -/
def FiringXyzKind.format : FiringXyzKind → FiringFormat
  | .Single16 _ => .Single16
  | .Single32 _ => .Single32
  | .Dual16 _ => .Dual16
  | .Dual32 _ => .Dual32

/-- `ConverterKind::firing_to_firing_xyz` (converter.rs, lines 208–225):
matching variants convert and wrap; any mismatch returns the unconsumed
firing to the caller (`Result<FiringXyzKind, FiringKind>`, rendered as
`Except FiringKind FiringXyzKind`). -/
noncomputable def ConverterKind.firing_to_firing_xyz (ck : ConverterKind)
    (firing : FiringKind) : Except FiringKind FiringXyzKind :=
  match ck, firing with
  | .Single16 conv, .Single16 f => .ok (.Single16 (conv.firing_to_firing_xyz f))
  | .Single32 conv, .Single32 f => .ok (.Single32 (conv.firing_to_firing_xyz f))
  | .Dual16 conv, .Dual16 f => .ok (.Dual16 (conv.firing_to_firing_xyz f))
  | .Dual32 conv, .Dual32 f => .ok (.Dual32 (conv.firing_to_firing_xyz f))
  | _, f => .error f

/-! ## Frames (src/velodyne-lidar/src/traits/azimuth_range.rs and
src/velodyne-lidar/src/types/firing_xyz.rs) -/

/-- `FiringXyzS16` (types/firing_xyz.rs): time, azimuth range, 16 points. -/
structure FiringXyzS16 where
  time : ℝ
  azimuth_range : ARange
  points : List PointSingle

/-- `FiringXyzS32` (types/firing_xyz.rs). -/
structure FiringXyzS32 where
  time : ℝ
  azimuth_range : ARange
  points : List PointSingle

/-- `FiringXyzD16` (types/firing_xyz.rs). -/
structure FiringXyzD16 where
  time : ℝ
  azimuth_range : ARange
  points : List PointDual

/-- `FiringXyzD32` (types/firing_xyz.rs). -/
structure FiringXyzD32 where
  time : ℝ
  azimuth_range : ARange
  points : List PointDual

/-- Modelled from the spec: `FrameXyzS16` — an ordered sequence of firings
covering one revolution (types/frame_xyz.rs is not among the provided
sources; the `firings` field is the one read by azimuth_range.rs). -/
structure FrameXyzS16 where
  firings : List FiringXyzS16

/-- Modelled from the spec: `FrameXyzS32`. -/
structure FrameXyzS32 where
  firings : List FiringXyzS32

/-- Modelled from the spec: `FrameXyzD16`. -/
structure FrameXyzD16 where
  firings : List FiringXyzD16

/-- Modelled from the spec: `FrameXyzD32`. -/
structure FrameXyzD32 where
  firings : List FiringXyzD32

/-- `AzimuthRange for FrameXyzS16` (azimuth_range.rs, lines 70–76): the range
from the first firing's start to the last firing's end. The source indexes
`firings[0]` and unwraps `firings.last()`; both partial accesses are
rendered as an `Option` that is `none` exactly when they would fail. -/
def FrameXyzS16.azimuthRange? (f : FrameXyzS16) : Option ARange :=
  match f.firings.head?, f.firings.getLast? with
  | some first, some final => some ⟨first.azimuth_range.start, final.azimuth_range.stop⟩
  | _, _ => none

/-- `AzimuthRange for FrameXyzS32` (azimuth_range.rs, lines 78–84). -/
def FrameXyzS32.azimuthRange? (f : FrameXyzS32) : Option ARange :=
  match f.firings.head?, f.firings.getLast? with
  | some first, some final => some ⟨first.azimuth_range.start, final.azimuth_range.stop⟩
  | _, _ => none

/-- `AzimuthRange for FrameXyzD16` (azimuth_range.rs, lines 86–92). -/
def FrameXyzD16.azimuthRange? (f : FrameXyzD16) : Option ARange :=
  match f.firings.head?, f.firings.getLast? with
  | some first, some final => some ⟨first.azimuth_range.start, final.azimuth_range.stop⟩
  | _, _ => none

/-- `AzimuthRange for FrameXyzD32` (azimuth_range.rs, lines 94–100). -/
def FrameXyzD32.azimuthRange? (f : FrameXyzD32) : Option ARange :=
  match f.firings.head?, f.firings.getLast? with
  | some first, some final => some ⟨first.azimuth_range.start, final.azimuth_range.stop⟩
  | _, _ => none

/-! ## Concrete sample data (used by the witness theorems) -/

/-- A trivial laser calibration entry. -/
noncomputable def exLaser : LaserParameter := ⟨0, 0, 0, 0⟩

/-- A sample channel measurement. -/
def exChannel : Channel := ⟨100, 5⟩

/-- A sample Single16 firing with one channel. -/
noncomputable def exFiringS16 : FiringSingle16 := ⟨0, ⟨0, 1⟩, [exChannel], 7⟩

/-- A sample Single32 firing with two channels. -/
noncomputable def exFiringS32 : FiringSingle32 :=
  ⟨0, ⟨0, 1⟩, [exChannel, exChannel], 7⟩

/-- A sample Dual16 firing with one channel pair. -/
noncomputable def exFiringD16 : FiringDual16 :=
  ⟨0, ⟨0, 1⟩, [exChannel], [exChannel], 7⟩

/-- A sample Dual32 firing with two channel pairs. -/
noncomputable def exFiringD32 : FiringDual32 :=
  ⟨0, ⟨0, 1⟩, [exChannel, exChannel], [exChannel, exChannel], 7⟩

/-- The point the sample Single16 conversion produces at index 0. -/
noncomputable def exPtS16 : PointSingle :=
  mkPointSingle 0 0 1 1 0 (channelTime16 0 0) exChannel exLaser

/-- The points the sample Single32 conversion produces at indices 0 and 1. -/
noncomputable def exPtS32a : PointSingle :=
  mkPointSingle 0 0 1 1 0 (channelTime32 0 0) exChannel exLaser

/-- Index-1 point of the sample Single32 conversion. -/
noncomputable def exPtS32b : PointSingle :=
  mkPointSingle 0 0 1 1 1 (channelTime32 0 1) exChannel exLaser

/-- The point the sample Dual16 conversion produces at index 0. -/
noncomputable def exPtD16 : PointDual :=
  mkPointDual 0 0 1 1 0 (channelTime16 0 0) exChannel exChannel exLaser

/-- Index-0 point of the sample Dual32 conversion. -/
noncomputable def exPtD32a : PointDual :=
  mkPointDual 0 0 1 1 0 (channelTime32 0 0) exChannel exChannel exLaser

/-- Index-1 point of the sample Dual32 conversion. -/
noncomputable def exPtD32b : PointDual :=
  mkPointDual 0 0 1 1 1 (channelTime32 0 1) exChannel exChannel exLaser

/-- A sample projected firing (no points needed for frame-level claims). -/
noncomputable def exFiringXyzS16 : FiringXyzS16 := ⟨0, ⟨0, 1⟩, []⟩

/-- Sample S32 projected firing. -/
noncomputable def exFiringXyzS32 : FiringXyzS32 := ⟨0, ⟨0, 1⟩, []⟩

/-- Sample D16 projected firing. -/
noncomputable def exFiringXyzD16 : FiringXyzD16 := ⟨0, ⟨0, 1⟩, []⟩

/-- Sample D32 projected firing. -/
noncomputable def exFiringXyzD32 : FiringXyzD32 := ⟨0, ⟨0, 1⟩, []⟩

/-- A well-formed Single16 configuration whose distance resolution is zero. -/
noncomputable def exConfigZeroRes : Config :=
  ⟨List.replicate 16 exLaser, 0, .Strongest, .beam16⟩

/-- A well-formed Single16 configuration (unit resolution). -/
noncomputable def exConfigS16 : Config :=
  ⟨List.replicate 16 exLaser, 1, .Strongest, .beam16⟩

/-- A sample Single16 converter. -/
noncomputable def exConvS16 : ConverterSingle16 := ⟨List.replicate 16 exLaser, 1⟩

/-! ## Batcher lemmas -/

theorem push_one_flatten {E α : Type} [LinearOrder α] (startAz : E → α)
    (b : Batcher E) (f : E) :
    ((b.push_one startAz f).1.toList).flatten ++ (b.push_one startAz f).2.buffer
      = b.buffer ++ [f] := by
  unfold Batcher.push_one
  rcases h : b.buffer.getLast? with _ | p
  · simp [h]
  · by_cases hlt : startAz p > startAz f <;> simp [h, hlt]

theorem pushList_flatten {E α : Type} [LinearOrder α] (startAz : E → α) :
    ∀ (l : List E) (b : Batcher E),
      (b.pushList startAz l).1.flatten ++ (b.pushList startAz l).2.buffer
        = b.buffer ++ l := by
  intro l
  induction l with
  | nil => intro b; simp [Batcher.pushList]
  | cons f rest ih =>
    intro b
    have h1 := push_one_flatten startAz b f
    have h2 := ih (b.push_one startAz f).2
    simp only [Batcher.pushList, List.flatten_append, List.append_assoc]
    rw [h2, ← List.append_assoc, h1, List.append_assoc, List.singleton_append]

theorem withIter_flatten {E α : Type} [LinearOrder α] (startAz : E → α)
    (b : Batcher E) (l : List E) :
    (b.withIter startAz l).flatten = b.buffer ++ l := by
  have h := pushList_flatten startAz l b
  unfold Batcher.withIter Batcher.take
  by_cases hb : (b.pushList startAz l).2.buffer.isEmpty
  · have hb' : (b.pushList startAz l).2.buffer = [] := List.isEmpty_iff.mp hb
    rw [hb'] at h
    simpa [hb] using h
  · simp only [Bool.not_eq_true] at hb
    simpa [hb, List.flatten_append] using h

theorem pushList_count {E α : Type} [LinearOrder α] (startAz : E → α) :
    ∀ (l : List E) (b : Batcher E) (p : E), b.buffer.getLast? = some p →
      (b.pushList startAz l).1.length = dropCount startAz (p :: l) ∧
      (b.pushList startAz l).2.buffer.getLast? = (p :: l).getLast? := by
  intro l
  induction l with
  | nil =>
    intro b p hp
    simp [Batcher.pushList, dropCount, hp]
  | cons f rest ih =>
    intro b p hp
    by_cases hlt : startAz p > startAz f
    · have hstep : b.push_one startAz f = (some b.buffer, ⟨[f]⟩) := by
        unfold Batcher.push_one
        simp [hp, hlt]
      have hrec := ih ⟨[f]⟩ f rfl
      refine ⟨?_, ?_⟩
      · simp only [Batcher.pushList, hstep]
        simp [hrec.1, dropCount, hlt]
        omega
      · simp only [Batcher.pushList, hstep]
        simpa [List.getLast?_cons_cons] using hrec.2
    · have hstep : b.push_one startAz f = (none, ⟨b.buffer ++ [f]⟩) := by
        unfold Batcher.push_one
        simp [hp, hlt]
      have hrec := ih ⟨b.buffer ++ [f]⟩ f (List.getLast?_concat _)
      refine ⟨?_, ?_⟩
      · simp only [Batcher.pushList, hstep]
        simp [hrec.1, dropCount, hlt]
      · simp only [Batcher.pushList, hstep]
        simpa [List.getLast?_cons_cons] using hrec.2

theorem push_one_emits_nonempty {E α : Type} [LinearOrder α] (startAz : E → α)
    (b : Batcher E) (f : E) (out : List E) (b2 : Batcher E)
    (h : b.push_one startAz f = (some out, b2)) : out ≠ [] := by
  unfold Batcher.push_one at h
  rcases hl : b.buffer.getLast? with _ | p <;> simp only [hl] at h
  · simp at h
  · by_cases hlt : startAz p > startAz f
    · rw [if_pos hlt] at h
      have hout : b.buffer = out := by
        have := congrArg Prod.fst h
        simpa using this
      subst hout
      intro hnil
      rw [hnil] at hl
      simp at hl
    · rw [if_neg hlt] at h
      have := congrArg Prod.fst h
      simp at this

theorem take_emits_nonempty {E : Type} (b : Batcher E) (out : List E)
    (b2 : Batcher E) (h : b.take = (some out, b2)) : out ≠ [] := by
  unfold Batcher.take at h
  by_cases hb : b.buffer.isEmpty
  · rw [if_pos hb] at h
    have := congrArg Prod.fst h
    simp at this
  · rw [if_neg hb] at h
    have hout : b.buffer = out := by
      have := congrArg Prod.fst h
      simpa using this
    subst hout
    simpa [List.isEmpty_iff] using hb

theorem pushList_mem_nonempty {E α : Type} [LinearOrder α] (startAz : E → α) :
    ∀ (l : List E) (b : Batcher E) (frame : List E),
      frame ∈ (b.pushList startAz l).1 → frame ≠ [] := by
  intro l
  induction l with
  | nil => intro b frame h; simp [Batcher.pushList] at h
  | cons f rest ih =>
    intro b frame h
    simp only [Batcher.pushList, List.mem_append] at h
    rcases h with h | h
    · rcases hstep : (b.push_one startAz f).1 with _ | out
      · rw [hstep] at h; simp at h
      · rw [hstep] at h
        simp at h
        subst h
        exact push_one_emits_nonempty startAz b f _ (b.push_one startAz f).2
          (by rw [← hstep])
    · exact ih (b.push_one startAz f).2 frame h

theorem withIter_mem_nonempty {E α : Type} [LinearOrder α] (startAz : E → α)
    (b : Batcher E) (l : List E) (frame : List E)
    (h : frame ∈ b.withIter startAz l) : frame ≠ [] := by
  unfold Batcher.withIter at h
  rw [List.mem_append] at h
  rcases h with h | h
  · exact pushList_mem_nonempty startAz l b frame h
  · rcases htake : ((b.pushList startAz l).2.take).1 with _ | out
    · rw [htake] at h; simp at h
    · rw [htake] at h
      simp at h
      subst h
      exact take_emits_nonempty (b.pushList startAz l).2 frame
        ((b.pushList startAz l).2.take).2 (by rw [← htake])

/-! ## Claim theorems: batcher and serde -/

/-- C1: `Batcher::push_one(f)` emits the previous buffer and leaves the buffer
equal to `[f]` exactly when the buffer is non-empty and `f`'s start azimuth is
strictly below the last buffered firing's; in every other case (empty buffer,
or greater-or-equal start azimuth — in particular exact equality) it appends
`f` and emits nothing. -/
theorem push_one_spec {E β : Type} [LinearOrder β] (startAz : E → β)
    (b : Batcher E) (f : E) :
    (∀ p, b.buffer.getLast? = some p → startAz f < startAz p →
      b.push_one startAz f = (some b.buffer, ⟨[f]⟩)) ∧
    (b.buffer.getLast? = none →
      b.push_one startAz f = (none, ⟨b.buffer ++ [f]⟩)) ∧
    (∀ p, b.buffer.getLast? = some p → startAz p ≤ startAz f →
      b.push_one startAz f = (none, ⟨b.buffer ++ [f]⟩)) := by
  refine ⟨fun p hp hlt => ?_, fun hp => ?_, fun p hp hle => ?_⟩
  · unfold Batcher.push_one
    simp [hp, hlt]
  · unfold Batcher.push_one
    simp [hp]
  · unfold Batcher.push_one
    simp [hp, not_lt.mpr hle]

/-- Witness for C1: a wrap at 3 → 2, and no wrap on an empty buffer and on an
exactly-equal azimuth 3 → 3. -/
theorem push_one_spec_witness :
    ((⟨[(3:ℤ)]⟩ : Batcher ℤ).buffer.getLast? = some 3 ∧ (2:ℤ) < 3 ∧
      (⟨[(3:ℤ)]⟩ : Batcher ℤ).push_one id 2 = (some [3], ⟨[2]⟩)) ∧
    ((Batcher.new : Batcher ℤ).buffer.getLast? = none ∧
      (Batcher.new : Batcher ℤ).push_one id 5 = (none, ⟨[5]⟩)) ∧
    ((⟨[(3:ℤ)]⟩ : Batcher ℤ).buffer.getLast? = some 3 ∧ (3:ℤ) ≤ 3 ∧
      (⟨[(3:ℤ)]⟩ : Batcher ℤ).push_one id 3 = (none, ⟨[3, 3]⟩)) :=
  ⟨⟨rfl, by norm_num, (push_one_spec id ⟨[(3:ℤ)]⟩ 2).1 3 rfl (by norm_num)⟩,
   ⟨rfl, (push_one_spec id Batcher.new 5).2.1 rfl⟩,
   ⟨rfl, le_refl 3, (push_one_spec id ⟨[(3:ℤ)]⟩ 3).2.2 3 rfl (le_refl 3)⟩⟩

/-- C2: pushing a firing sequence through `push_one` and flushing with `take`
yields frames whose concatenation is the input; a non-empty input with
`M - 1` interior strict azimuth drops yields exactly `M` frames. -/
theorem framing_round_trip {E β : Type} [LinearOrder β] (startAz : E → β)
    (l : List E) :
    (Batcher.withIter startAz Batcher.new l).flatten = l ∧
    (l ≠ [] →
      (Batcher.withIter startAz Batcher.new l).length
        = dropCount startAz l + 1) := by
  constructor
  · simpa [Batcher.new] using withIter_flatten startAz Batcher.new l
  · intro hne
    rcases l with _ | ⟨f, rest⟩
    · exact absurd rfl hne
    · have hstep : (Batcher.new : Batcher E).push_one startAz f
          = (none, ⟨[f]⟩) := by
        unfold Batcher.push_one Batcher.new
        simp
      have hrec := pushList_count startAz rest ⟨[f]⟩ f rfl
      have hne2 : ((⟨[f]⟩ : Batcher E).pushList startAz rest).2.buffer ≠ [] := by
        have h2 := hrec.2
        intro hnil
        rw [hnil] at h2
        have hs : ((f :: rest).getLast?).isSome :=
          List.getLast?_isSome.mpr (by simp)
        rw [← h2] at hs
        simp at hs
      have hemp : ((⟨[f]⟩ : Batcher E).pushList startAz rest).2.buffer.isEmpty
          = false := List.isEmpty_eq_false.mpr hne2
      unfold Batcher.withIter Batcher.take
      simp only [Batcher.pushList, hstep]
      simp [hemp, hrec.1]

/-- Witness for C2: the spec's two-revolution scenario
`[0, 90, 180, 270, 350, 5, 90, 180]` concatenates back to itself and yields
`dropCount + 1 = 2` frames. -/
theorem framing_round_trip_witness :
    ([0, 90, 180, 270, 350, 5, 90, 180] : List ℤ) ≠ [] ∧
    (Batcher.withIter id Batcher.new
        ([0, 90, 180, 270, 350, 5, 90, 180] : List ℤ)).flatten
      = [0, 90, 180, 270, 350, 5, 90, 180] ∧
    (Batcher.withIter id Batcher.new
        ([0, 90, 180, 270, 350, 5, 90, 180] : List ℤ)).length
      = dropCount id ([0, 90, 180, 270, 350, 5, 90, 180] : List ℤ) + 1 :=
  ⟨by decide,
   (framing_round_trip id [0, 90, 180, 270, 350, 5, 90, 180]).1,
   (framing_round_trip id [0, 90, 180, 270, 350, 5, 90, 180]).2 (by decide)⟩

/-- C9: the integer-coded booleans round-trip (`true ↔ 1`, `false ↔ 0`) and
deserialization rejects every integer other than 0 and 1. -/
theorem bool_int_round_trip :
    (∀ b : Bool, de_bool_from_int (ser_bool_to_int b) = .ok b) ∧
    (∀ n : ℕ, n ≠ 0 → n ≠ 1 → de_bool_from_int n = .error "Expect 0 or 1") := by
  constructor
  · intro b
    cases b <;> rfl
  · intro n h0 h1
    rcases n with _ | n
    · exact absurd rfl h0
    rcases n with _ | n
    · exact absurd rfl h1
    rfl

/-- Witness for C9: round trip of `true` and rejection of 5. -/
theorem bool_int_round_trip_witness :
    de_bool_from_int (ser_bool_to_int true) = .ok true ∧
    (5:ℕ) ≠ 0 ∧ (5:ℕ) ≠ 1 ∧
    de_bool_from_int 5 = .error "Expect 0 or 1" :=
  ⟨bool_int_round_trip.1 true, by decide, by decide,
   bool_int_round_trip.2 5 (by decide) (by decide)⟩

/-- C10: every frame emitted by the batcher (`push_one`, `take`, or the
`with_iter` adapter) is non-empty, so `azimuth_range()` on a frame built
from a batcher-emitted buffer never hits the failing index/`None` branch. -/
theorem batcher_frames_nonempty :
    (∀ (E β : Type) [LinearOrder β] (startAz : E → β) (b : Batcher E) (f : E)
        (out : List E) (b2 : Batcher E),
      b.push_one startAz f = (some out, b2) → out ≠ []) ∧
    (∀ (E : Type) (b : Batcher E) (out : List E) (b2 : Batcher E),
      b.take = (some out, b2) → out ≠ []) ∧
    (∀ (E β : Type) [LinearOrder β] (startAz : E → β) (b : Batcher E)
        (l : List E) (frame : List E),
      frame ∈ b.withIter startAz l → frame ≠ []) ∧
    (∀ (l : List FiringXyzS16) (frame : List FiringXyzS16),
      frame ∈ Batcher.withIter (fun fx => fx.azimuth_range.start)
          Batcher.new l →
      (FrameXyzS16.mk frame).azimuthRange?.isSome = true) := by
  refine ⟨?_, ?_, ?_, ?_⟩
  · intro E β _ startAz b f out b2 h
    exact push_one_emits_nonempty startAz b f out b2 h
  · intro E b out b2 h
    exact take_emits_nonempty b out b2 h
  · intro E β _ startAz b l frame h
    exact withIter_mem_nonempty startAz b l frame h
  · intro l frame h
    have hne := withIter_mem_nonempty _ _ _ _ h
    have h1 := List.head?_eq_head (l := frame) hne
    have h2 := List.getLast?_eq_getLast_of_ne_nil (l := frame) hne
    simp [FrameXyzS16.azimuthRange?, h1, h2]

/-- Witness for C10: concrete emissions of each kind are non-empty, and a
frame built from a `with_iter` output has a defined azimuth range. -/
theorem batcher_frames_nonempty_witness :
    ((⟨[(3:ℤ)]⟩ : Batcher ℤ).push_one id 2 = (some [3], ⟨[2]⟩)
      ∧ ([(3:ℤ)] : List ℤ) ≠ []) ∧
    ((⟨[(7:ℤ)]⟩ : Batcher ℤ).take = (some [7], ⟨[]⟩)
      ∧ ([(7:ℤ)] : List ℤ) ≠ []) ∧
    ([(5:ℤ)] ∈ Batcher.withIter id (Batcher.new : Batcher ℤ) [5]
      ∧ ([(5:ℤ)] : List ℤ) ≠ []) ∧
    ([exFiringXyzS16] ∈ Batcher.withIter
        (fun fx => fx.azimuth_range.start) Batcher.new [exFiringXyzS16]
      ∧ (FrameXyzS16.mk [exFiringXyzS16]).azimuthRange?.isSome = true) := by
  have h1 : (⟨[(3:ℤ)]⟩ : Batcher ℤ).push_one id 2 = (some [3], ⟨[2]⟩) := rfl
  have h2 : (⟨[(7:ℤ)]⟩ : Batcher ℤ).take = (some [7], ⟨[]⟩) := rfl
  have h3 : [(5:ℤ)] ∈ Batcher.withIter id (Batcher.new : Batcher ℤ) [5] := by
    show [(5:ℤ)] ∈ [[(5:ℤ)]]
    exact List.mem_singleton.mpr rfl
  have h4 : [exFiringXyzS16] ∈ Batcher.withIter
      (fun fx => fx.azimuth_range.start) Batcher.new [exFiringXyzS16] := by
    show [exFiringXyzS16] ∈ [[exFiringXyzS16]]
    exact List.mem_singleton.mpr rfl
  exact ⟨⟨h1, batcher_frames_nonempty.1 ℤ ℤ id _ _ _ _ h1⟩,
    ⟨h2, batcher_frames_nonempty.2.1 ℤ _ _ _ h2⟩,
    ⟨h3, batcher_frames_nonempty.2.2.1 ℤ ℤ id _ _ _ h3⟩,
    ⟨h4, batcher_frames_nonempty.2.2.2 _ _ h4⟩⟩

/-! ## Converter lemmas -/

theorem wrap_to_2pi_bounds (x : ℝ) :
    0 ≤ wrap_to_2pi x ∧ wrap_to_2pi x < 2 * Real.pi := by
  have hT : (0:ℝ) < 2 * Real.pi := by positivity
  have h1 : ((⌊x / (2 * Real.pi)⌋ : ℝ)) * (2 * Real.pi) ≤ x :=
    (le_div_iff₀ hT).mp (Int.floor_le _)
  have h2 : x < ((⌊x / (2 * Real.pi)⌋ : ℝ) + 1) * (2 * Real.pi) :=
    (div_lt_iff₀ hT).mp (Int.lt_floor_add_one _)
  unfold wrap_to_2pi
  constructor <;> nlinarith [h1, h2]

theorem channelTime16_eq (t : ℝ) (k : ℕ) :
    channelTime16 t k = t + k * CHANNEL_PERIOD := by
  induction k with
  | zero => simp [channelTime16]
  | succ k ih =>
    show channelTime16 t k + CHANNEL_PERIOD = t + ((k + 1 : ℕ) : ℝ) * CHANNEL_PERIOD
    rw [ih]
    push_cast
    ring

theorem zipPointsSingle_get? (ft aS aE dr : ℝ) (ct : ℕ → ℝ) :
    ∀ (chs : List Channel) (ls : List LaserParameter) (k i : ℕ),
      (zipPointsSingle ft aS aE dr ct k chs ls).get? i =
        (chs.get? i).bind fun ch => (ls.get? i).map fun laser =>
          mkPointSingle ft aS aE dr (k + i) (ct (k + i)) ch laser := by
  intro chs
  induction chs with
  | nil => intro ls k i; simp [zipPointsSingle]
  | cons ch chs ih =>
    intro ls k i
    cases ls with
    | nil =>
      rcases hi : (ch :: chs).get? i with _ | c <;>
        simp [zipPointsSingle, hi]
    | cons laser ls =>
      cases i with
      | zero => simp [zipPointsSingle]
      | succ i =>
        have h : k + (i + 1) = k + 1 + i := by omega
        simp only [zipPointsSingle, List.get?_cons_succ, h]
        exact ih ls (k + 1) i

theorem zipPointsDual_get? (ft aS aE dr : ℝ) (ct : ℕ → ℝ) :
    ∀ (css cls : List Channel) (ls : List LaserParameter) (k i : ℕ),
      (zipPointsDual ft aS aE dr ct k css cls ls).get? i =
        (css.get? i).bind fun cs => (cls.get? i).bind fun cl =>
          (ls.get? i).map fun laser =>
            mkPointDual ft aS aE dr (k + i) (ct (k + i)) cs cl laser := by
  intro css
  induction css with
  | nil => intro cls ls k i; simp [zipPointsDual]
  | cons cs css ih =>
    intro cls ls k i
    cases cls with
    | nil =>
      rcases hi : (cs :: css).get? i with _ | c <;>
        simp [zipPointsDual, hi]
    | cons cl cls =>
      cases ls with
      | nil =>
        rcases hi : (cs :: css).get? i with _ | c <;>
          rcases hj : (cl :: cls).get? i with _ | d <;>
            simp [zipPointsDual, hi, hj]
      | cons laser ls =>
        cases i with
        | zero => simp [zipPointsDual]
        | succ i =>
          have h : k + (i + 1) = k + 1 + i := by omega
          simp only [zipPointsDual, List.get?_cons_succ, h]
          exact ih cls ls (k + 1) i

theorem single16_points_get? (firing : FiringSingle16) (dr : ℝ)
    (ls : List LaserParameter) (k : ℕ) :
    (firing_single_16_to_xyz firing dr ls).points.get? k =
      (firing.channels.get? k).bind fun ch => (ls.get? k).map fun laser =>
        mkPointSingle firing.time firing.azimuth_range.start
          firing.azimuth_range.stop dr k (channelTime16 firing.time k)
          ch laser := by
  have h := zipPointsSingle_get? firing.time firing.azimuth_range.start
    firing.azimuth_range.stop dr (channelTime16 firing.time)
    firing.channels ls 0 k
  simpa [firing_single_16_to_xyz] using h

theorem single32_points_get? (firing : FiringSingle32) (dr : ℝ)
    (ls : List LaserParameter) (k : ℕ) :
    (firing_single_32_to_xyz firing dr ls).points.get? k =
      (firing.channels.get? k).bind fun ch => (ls.get? k).map fun laser =>
        mkPointSingle firing.time firing.azimuth_range.start
          firing.azimuth_range.stop dr k (channelTime32 firing.time k)
          ch laser := by
  have h := zipPointsSingle_get? firing.time firing.azimuth_range.start
    firing.azimuth_range.stop dr (channelTime32 firing.time)
    firing.channels ls 0 k
  simpa [firing_single_32_to_xyz] using h

theorem dual16_points_get? (firing : FiringDual16) (dr : ℝ)
    (ls : List LaserParameter) (k : ℕ) :
    (firing_dual_16_to_xyz firing dr ls).points.get? k =
      (firing.channels_strongest.get? k).bind fun cs =>
        (firing.channels_last.get? k).bind fun cl =>
          (ls.get? k).map fun laser =>
            mkPointDual firing.time firing.azimuth_range.start
              firing.azimuth_range.stop dr k (channelTime16 firing.time k)
              cs cl laser := by
  have h := zipPointsDual_get? firing.time firing.azimuth_range.start
    firing.azimuth_range.stop dr (channelTime16 firing.time)
    firing.channels_strongest firing.channels_last ls 0 k
  simpa [firing_dual_16_to_xyz] using h

theorem dual32_points_get? (firing : FiringDual32) (dr : ℝ)
    (ls : List LaserParameter) (k : ℕ) :
    (firing_dual_32_to_xyz firing dr ls).points.get? k =
      (firing.channels_strongest.get? k).bind fun cs =>
        (firing.channels_last.get? k).bind fun cl =>
          (ls.get? k).map fun laser =>
            mkPointDual firing.time firing.azimuth_range.start
              firing.azimuth_range.stop dr k (channelTime32 firing.time k)
              cs cl laser := by
  have h := zipPointsDual_get? firing.time firing.azimuth_range.start
    firing.azimuth_range.stop dr (channelTime32 firing.time)
    firing.channels_strongest firing.channels_last ls 0 k
  simpa [firing_dual_32_to_xyz] using h

theorem single16_point_elim (firing : FiringSingle16) (dr : ℝ)
    (ls : List LaserParameter) (k : ℕ) (p : PointSingle)
    (hp : (firing_single_16_to_xyz firing dr ls).points.get? k = some p) :
    ∃ ch laser, firing.channels.get? k = some ch ∧ ls.get? k = some laser ∧
      p = mkPointSingle firing.time firing.azimuth_range.start
        firing.azimuth_range.stop dr k (channelTime16 firing.time k)
        ch laser := by
  rw [single16_points_get?] at hp
  rcases hch : firing.channels.get? k with _ | ch <;> rw [hch] at hp
  · simp at hp
  · rcases hls : ls.get? k with _ | laser <;> rw [hls] at hp
    · simp at hp
    · simp at hp
      exact ⟨ch, laser, rfl, rfl, hp.symm⟩

theorem single32_point_elim (firing : FiringSingle32) (dr : ℝ)
    (ls : List LaserParameter) (k : ℕ) (p : PointSingle)
    (hp : (firing_single_32_to_xyz firing dr ls).points.get? k = some p) :
    ∃ ch laser, firing.channels.get? k = some ch ∧ ls.get? k = some laser ∧
      p = mkPointSingle firing.time firing.azimuth_range.start
        firing.azimuth_range.stop dr k (channelTime32 firing.time k)
        ch laser := by
  rw [single32_points_get?] at hp
  rcases hch : firing.channels.get? k with _ | ch <;> rw [hch] at hp
  · simp at hp
  · rcases hls : ls.get? k with _ | laser <;> rw [hls] at hp
    · simp at hp
    · simp at hp
      exact ⟨ch, laser, rfl, rfl, hp.symm⟩

theorem dual16_point_elim (firing : FiringDual16) (dr : ℝ)
    (ls : List LaserParameter) (k : ℕ) (p : PointDual)
    (hp : (firing_dual_16_to_xyz firing dr ls).points.get? k = some p) :
    ∃ cs cl laser, firing.channels_strongest.get? k = some cs ∧
      firing.channels_last.get? k = some cl ∧ ls.get? k = some laser ∧
      p = mkPointDual firing.time firing.azimuth_range.start
        firing.azimuth_range.stop dr k (channelTime16 firing.time k)
        cs cl laser := by
  rw [dual16_points_get?] at hp
  rcases hcs : firing.channels_strongest.get? k with _ | cs <;> rw [hcs] at hp
  · simp at hp
  · rcases hcl : firing.channels_last.get? k with _ | cl <;> rw [hcl] at hp
    · simp at hp
    · rcases hls : ls.get? k with _ | laser <;> rw [hls] at hp
      · simp at hp
      · simp at hp
        exact ⟨cs, cl, laser, rfl, rfl, rfl, hp.symm⟩

theorem dual32_point_elim (firing : FiringDual32) (dr : ℝ)
    (ls : List LaserParameter) (k : ℕ) (p : PointDual)
    (hp : (firing_dual_32_to_xyz firing dr ls).points.get? k = some p) :
    ∃ cs cl laser, firing.channels_strongest.get? k = some cs ∧
      firing.channels_last.get? k = some cl ∧ ls.get? k = some laser ∧
      p = mkPointDual firing.time firing.azimuth_range.start
        firing.azimuth_range.stop dr k (channelTime32 firing.time k)
        cs cl laser := by
  rw [dual32_points_get?] at hp
  rcases hcs : firing.channels_strongest.get? k with _ | cs <;> rw [hcs] at hp
  · simp at hp
  · rcases hcl : firing.channels_last.get? k with _ | cl <;> rw [hcl] at hp
    · simp at hp
    · rcases hls : ls.get? k with _ | laser <;> rw [hls] at hp
      · simp at hp
      · simp at hp
        exact ⟨cs, cl, laser, rfl, rfl, rfl, hp.symm⟩

/-! ## Claim theorems: converter -/

/-- C3: in all four conversions, the point at channel `k` carries the azimuth
`wrap_to_2pi(start + (end − start) · ratio + azimuth_offset)` with
`ratio = (channel_time − firing_time) / FIRING_PERIOD`, and that azimuth lies
in `[0, 2π)`. -/
theorem point_azimuth_spec :
    (∀ (firing : FiringSingle16) (dr : ℝ) (ls : List LaserParameter)
        (k : ℕ) (p : PointSingle) (laser : LaserParameter),
      ls.get? k = some laser →
      (firing_single_16_to_xyz firing dr ls).points.get? k = some p →
      p.azimuth = wrap_to_2pi (firing.azimuth_range.start +
          (firing.azimuth_range.stop - firing.azimuth_range.start) *
            ((channelTime16 firing.time k - firing.time) / FIRING_PERIOD) +
          laser.azimuth_offset) ∧
        0 ≤ p.azimuth ∧ p.azimuth < 2 * Real.pi) ∧
    (∀ (firing : FiringSingle32) (dr : ℝ) (ls : List LaserParameter)
        (k : ℕ) (p : PointSingle) (laser : LaserParameter),
      ls.get? k = some laser →
      (firing_single_32_to_xyz firing dr ls).points.get? k = some p →
      p.azimuth = wrap_to_2pi (firing.azimuth_range.start +
          (firing.azimuth_range.stop - firing.azimuth_range.start) *
            ((channelTime32 firing.time k - firing.time) / FIRING_PERIOD) +
          laser.azimuth_offset) ∧
        0 ≤ p.azimuth ∧ p.azimuth < 2 * Real.pi) ∧
    (∀ (firing : FiringDual16) (dr : ℝ) (ls : List LaserParameter)
        (k : ℕ) (p : PointDual) (laser : LaserParameter),
      ls.get? k = some laser →
      (firing_dual_16_to_xyz firing dr ls).points.get? k = some p →
      p.azimuth = wrap_to_2pi (firing.azimuth_range.start +
          (firing.azimuth_range.stop - firing.azimuth_range.start) *
            ((channelTime16 firing.time k - firing.time) / FIRING_PERIOD) +
          laser.azimuth_offset) ∧
        0 ≤ p.azimuth ∧ p.azimuth < 2 * Real.pi) ∧
    (∀ (firing : FiringDual32) (dr : ℝ) (ls : List LaserParameter)
        (k : ℕ) (p : PointDual) (laser : LaserParameter),
      ls.get? k = some laser →
      (firing_dual_32_to_xyz firing dr ls).points.get? k = some p →
      p.azimuth = wrap_to_2pi (firing.azimuth_range.start +
          (firing.azimuth_range.stop - firing.azimuth_range.start) *
            ((channelTime32 firing.time k - firing.time) / FIRING_PERIOD) +
          laser.azimuth_offset) ∧
        0 ≤ p.azimuth ∧ p.azimuth < 2 * Real.pi) := by
  refine ⟨?_, ?_, ?_, ?_⟩
  · intro firing dr ls k p laser hl hp
    obtain ⟨ch, laser2, hch, hl2, rfl⟩ := single16_point_elim firing dr ls k p hp
    obtain rfl : laser = laser2 := Option.some_inj.mp (hl.symm.trans hl2)
    exact ⟨rfl, (wrap_to_2pi_bounds _).1, (wrap_to_2pi_bounds _).2⟩
  · intro firing dr ls k p laser hl hp
    obtain ⟨ch, laser2, hch, hl2, rfl⟩ := single32_point_elim firing dr ls k p hp
    obtain rfl : laser = laser2 := Option.some_inj.mp (hl.symm.trans hl2)
    exact ⟨rfl, (wrap_to_2pi_bounds _).1, (wrap_to_2pi_bounds _).2⟩
  · intro firing dr ls k p laser hl hp
    obtain ⟨cs, cl, laser2, hcs, hcl, hl2, rfl⟩ :=
      dual16_point_elim firing dr ls k p hp
    obtain rfl : laser = laser2 := Option.some_inj.mp (hl.symm.trans hl2)
    exact ⟨rfl, (wrap_to_2pi_bounds _).1, (wrap_to_2pi_bounds _).2⟩
  · intro firing dr ls k p laser hl hp
    obtain ⟨cs, cl, laser2, hcs, hcl, hl2, rfl⟩ :=
      dual32_point_elim firing dr ls k p hp
    obtain rfl : laser = laser2 := Option.some_inj.mp (hl.symm.trans hl2)
    exact ⟨rfl, (wrap_to_2pi_bounds _).1, (wrap_to_2pi_bounds _).2⟩

/-- Witness for C3: concrete points of all four sample conversions at channel
index 0 have the interpolated, wrapped azimuth in `[0, 2π)`. -/
theorem point_azimuth_spec_witness :
    (([exLaser].get? 0 = some exLaser) ∧
      (firing_single_16_to_xyz exFiringS16 1 [exLaser]).points.get? 0
        = some exPtS16 ∧
      (exPtS16.azimuth = wrap_to_2pi (exFiringS16.azimuth_range.start +
          (exFiringS16.azimuth_range.stop - exFiringS16.azimuth_range.start) *
            ((channelTime16 exFiringS16.time 0 - exFiringS16.time)
              / FIRING_PERIOD) + exLaser.azimuth_offset) ∧
        0 ≤ exPtS16.azimuth ∧ exPtS16.azimuth < 2 * Real.pi)) ∧
    (([exLaser, exLaser].get? 0 = some exLaser) ∧
      (firing_single_32_to_xyz exFiringS32 1 [exLaser, exLaser]).points.get? 0
        = some exPtS32a ∧
      (exPtS32a.azimuth = wrap_to_2pi (exFiringS32.azimuth_range.start +
          (exFiringS32.azimuth_range.stop - exFiringS32.azimuth_range.start) *
            ((channelTime32 exFiringS32.time 0 - exFiringS32.time)
              / FIRING_PERIOD) + exLaser.azimuth_offset) ∧
        0 ≤ exPtS32a.azimuth ∧ exPtS32a.azimuth < 2 * Real.pi)) ∧
    (([exLaser].get? 0 = some exLaser) ∧
      (firing_dual_16_to_xyz exFiringD16 1 [exLaser]).points.get? 0
        = some exPtD16 ∧
      (exPtD16.azimuth = wrap_to_2pi (exFiringD16.azimuth_range.start +
          (exFiringD16.azimuth_range.stop - exFiringD16.azimuth_range.start) *
            ((channelTime16 exFiringD16.time 0 - exFiringD16.time)
              / FIRING_PERIOD) + exLaser.azimuth_offset) ∧
        0 ≤ exPtD16.azimuth ∧ exPtD16.azimuth < 2 * Real.pi)) ∧
    (([exLaser, exLaser].get? 0 = some exLaser) ∧
      (firing_dual_32_to_xyz exFiringD32 1 [exLaser, exLaser]).points.get? 0
        = some exPtD32a ∧
      (exPtD32a.azimuth = wrap_to_2pi (exFiringD32.azimuth_range.start +
          (exFiringD32.azimuth_range.stop - exFiringD32.azimuth_range.start) *
            ((channelTime32 exFiringD32.time 0 - exFiringD32.time)
              / FIRING_PERIOD) + exLaser.azimuth_offset) ∧
        0 ≤ exPtD32a.azimuth ∧ exPtD32a.azimuth < 2 * Real.pi)) :=
  ⟨⟨rfl, rfl, point_azimuth_spec.1 exFiringS16 1 [exLaser] 0 exPtS16 exLaser
      rfl rfl⟩,
   ⟨rfl, rfl, point_azimuth_spec.2.1 exFiringS32 1 [exLaser, exLaser] 0
      exPtS32a exLaser rfl rfl⟩,
   ⟨rfl, rfl, point_azimuth_spec.2.2.1 exFiringD16 1 [exLaser] 0 exPtD16
      exLaser rfl rfl⟩,
   ⟨rfl, rfl, point_azimuth_spec.2.2.2 exFiringD32 1 [exLaser, exLaser] 0
      exPtD32a exLaser rfl rfl⟩⟩

/-- C4: the 16-beam conversions stamp point `k` with
`firing_time + k · CHANNEL_PERIOD`; the 32-beam conversions stamp it with
`firing_time + ⌊k/2⌋ · CHANNEL_PERIOD`, so channel pairs `(2j, 2j+1)` share
one time. -/
theorem point_time_spec :
    (∀ (firing : FiringSingle16) (dr : ℝ) (ls : List LaserParameter)
        (k : ℕ) (p : PointSingle),
      (firing_single_16_to_xyz firing dr ls).points.get? k = some p →
      p.time = firing.time + (k : ℝ) * CHANNEL_PERIOD) ∧
    (∀ (firing : FiringDual16) (dr : ℝ) (ls : List LaserParameter)
        (k : ℕ) (p : PointDual),
      (firing_dual_16_to_xyz firing dr ls).points.get? k = some p →
      p.time = firing.time + (k : ℝ) * CHANNEL_PERIOD) ∧
    (∀ (firing : FiringSingle32) (dr : ℝ) (ls : List LaserParameter)
        (k : ℕ) (p : PointSingle),
      (firing_single_32_to_xyz firing dr ls).points.get? k = some p →
      p.time = firing.time + ((k / 2 : ℕ) : ℝ) * CHANNEL_PERIOD) ∧
    (∀ (firing : FiringDual32) (dr : ℝ) (ls : List LaserParameter)
        (k : ℕ) (p : PointDual),
      (firing_dual_32_to_xyz firing dr ls).points.get? k = some p →
      p.time = firing.time + ((k / 2 : ℕ) : ℝ) * CHANNEL_PERIOD) ∧
    (∀ (firing : FiringSingle32) (dr : ℝ) (ls : List LaserParameter)
        (j : ℕ) (p q : PointSingle),
      (firing_single_32_to_xyz firing dr ls).points.get? (2 * j) = some p →
      (firing_single_32_to_xyz firing dr ls).points.get? (2 * j + 1) = some q →
      p.time = q.time) ∧
    (∀ (firing : FiringDual32) (dr : ℝ) (ls : List LaserParameter)
        (j : ℕ) (p q : PointDual),
      (firing_dual_32_to_xyz firing dr ls).points.get? (2 * j) = some p →
      (firing_dual_32_to_xyz firing dr ls).points.get? (2 * j + 1) = some q →
      p.time = q.time) := by
  refine ⟨?_, ?_, ?_, ?_, ?_, ?_⟩
  · intro firing dr ls k p hp
    obtain ⟨ch, laser, -, -, rfl⟩ := single16_point_elim firing dr ls k p hp
    exact channelTime16_eq firing.time k
  · intro firing dr ls k p hp
    obtain ⟨cs, cl, laser, -, -, -, rfl⟩ := dual16_point_elim firing dr ls k p hp
    exact channelTime16_eq firing.time k
  · intro firing dr ls k p hp
    obtain ⟨ch, laser, -, -, rfl⟩ := single32_point_elim firing dr ls k p hp
    exact channelTime16_eq firing.time (k / 2)
  · intro firing dr ls k p hp
    obtain ⟨cs, cl, laser, -, -, -, rfl⟩ := dual32_point_elim firing dr ls k p hp
    exact channelTime16_eq firing.time (k / 2)
  · intro firing dr ls j p q hp hq
    obtain ⟨ch1, laser1, -, -, rfl⟩ :=
      single32_point_elim firing dr ls (2 * j) p hp
    obtain ⟨ch2, laser2, -, -, rfl⟩ :=
      single32_point_elim firing dr ls (2 * j + 1) q hq
    show channelTime32 firing.time (2 * j) = channelTime32 firing.time (2 * j + 1)
    unfold channelTime32
    congr 1
    omega
  · intro firing dr ls j p q hp hq
    obtain ⟨cs1, cl1, laser1, -, -, -, rfl⟩ :=
      dual32_point_elim firing dr ls (2 * j) p hp
    obtain ⟨cs2, cl2, laser2, -, -, -, rfl⟩ :=
      dual32_point_elim firing dr ls (2 * j + 1) q hq
    show channelTime32 firing.time (2 * j) = channelTime32 firing.time (2 * j + 1)
    unfold channelTime32
    congr 1
    omega

/-- Witness for C4: concrete channel times of the sample conversions,
including the shared pair (0, 1) of the 32-beam variants. -/
theorem point_time_spec_witness :
    ((firing_single_16_to_xyz exFiringS16 1 [exLaser]).points.get? 0
        = some exPtS16 ∧
      exPtS16.time = exFiringS16.time + ((0 : ℕ) : ℝ) * CHANNEL_PERIOD) ∧
    ((firing_dual_16_to_xyz exFiringD16 1 [exLaser]).points.get? 0
        = some exPtD16 ∧
      exPtD16.time = exFiringD16.time + ((0 : ℕ) : ℝ) * CHANNEL_PERIOD) ∧
    ((firing_single_32_to_xyz exFiringS32 1 [exLaser, exLaser]).points.get? 1
        = some exPtS32b ∧
      exPtS32b.time = exFiringS32.time + ((1 / 2 : ℕ) : ℝ) * CHANNEL_PERIOD) ∧
    ((firing_dual_32_to_xyz exFiringD32 1 [exLaser, exLaser]).points.get? 1
        = some exPtD32b ∧
      exPtD32b.time = exFiringD32.time + ((1 / 2 : ℕ) : ℝ) * CHANNEL_PERIOD) ∧
    ((firing_single_32_to_xyz exFiringS32 1 [exLaser, exLaser]).points.get?
        (2 * 0) = some exPtS32a ∧
      (firing_single_32_to_xyz exFiringS32 1 [exLaser, exLaser]).points.get?
        (2 * 0 + 1) = some exPtS32b ∧
      exPtS32a.time = exPtS32b.time) ∧
    ((firing_dual_32_to_xyz exFiringD32 1 [exLaser, exLaser]).points.get?
        (2 * 0) = some exPtD32a ∧
      (firing_dual_32_to_xyz exFiringD32 1 [exLaser, exLaser]).points.get?
        (2 * 0 + 1) = some exPtD32b ∧
      exPtD32a.time = exPtD32b.time) :=
  ⟨⟨rfl, point_time_spec.1 exFiringS16 1 [exLaser] 0 exPtS16 rfl⟩,
   ⟨rfl, point_time_spec.2.1 exFiringD16 1 [exLaser] 0 exPtD16 rfl⟩,
   ⟨rfl, point_time_spec.2.2.1 exFiringS32 1 [exLaser, exLaser] 1 exPtS32b rfl⟩,
   ⟨rfl, point_time_spec.2.2.2.1 exFiringD32 1 [exLaser, exLaser] 1 exPtD32b rfl⟩,
   ⟨rfl, rfl, point_time_spec.2.2.2.2.1 exFiringS32 1 [exLaser, exLaser] 0
      exPtS32a exPtS32b rfl rfl⟩,
   ⟨rfl, rfl, point_time_spec.2.2.2.2.2 exFiringD32 1 [exLaser, exLaser] 0
      exPtD32a exPtD32b rfl rfl⟩⟩

/-- C5: `spherical_to_xyz` computes exactly the planar-distance projection
formulas, and on the spec's unit tests maps `(10 m, elev 0, az 0)` to
`(0, 10, 0)`, `(10 m, elev 0, az 90°)` to `(10, 0, 0)`, and
`(10 m, elev 90°, az 0)` to `(0, 0, 10)`. -/
theorem spherical_to_xyz_spec :
    (∀ d e a vo ho : ℝ,
      spherical_to_xyz d e a vo ho =
        [(d * Real.cos e - vo * Real.sin e) * Real.sin a - ho * Real.cos a,
         (d * Real.cos e - vo * Real.sin e) * Real.cos a + ho * Real.sin a,
         d * Real.sin e + vo * Real.cos e]) ∧
    spherical_to_xyz 10 0 0 0 0 = [0, 10, 0] ∧
    spherical_to_xyz 10 0 (Real.pi / 2) 0 0 = [10, 0, 0] ∧
    spherical_to_xyz 10 (Real.pi / 2) 0 0 0 = [0, 0, 10] := by
  refine ⟨fun d e a vo ho => rfl, ?_, ?_, ?_⟩ <;>
    simp [spherical_to_xyz, Real.sin_pi_div_two, Real.cos_pi_div_two]

/-- C6 (amended): `ConverterKind::from_config` succeeds iff the laser table's
length equals the beam count of the config's firing format, in which case it
returns the matching variant carrying exactly the given lasers and distance
resolution; on a length mismatch it returns the "invalid laser parameters"
error. The distance resolution is not validated. -/
theorem from_config_spec (c : Config) :
    ((∃ k, ConverterKind.from_config c = .ok k) ↔
      c.lasers.length = c.firing_format.beamCount) ∧
    (∀ k, ConverterKind.from_config c = .ok k →
      k.firing_format = c.firing_format ∧ k.lasersOf = c.lasers ∧
        k.resolutionOf = c.distance_resolution) ∧
    (c.lasers.length ≠ c.firing_format.beamCount →
      ConverterKind.from_config c = .error "invalid laser parameters") := by
  cases hf : c.firing_format with
  | Single16 =>
    simp only [ConverterKind.from_config, hf, FiringFormat.beamCount]
    by_cases hlen : c.lasers.length = 16
    · rw [if_pos hlen]
      refine ⟨⟨fun _ => hlen, fun _ => ⟨_, rfl⟩⟩, fun k hk => ?_,
        fun hne => absurd hlen hne⟩
      injection hk with h
      subst h
      exact ⟨rfl, rfl, rfl⟩
    · rw [if_neg hlen]
      refine ⟨⟨fun h => ?_, fun h => absurd h hlen⟩,
        fun k hk => absurd hk (fun hh => nomatch hh), fun _ => rfl⟩
      obtain ⟨k, hk⟩ := h
      exact absurd hk (fun hh => nomatch hh)
  | Single32 =>
    simp only [ConverterKind.from_config, hf, FiringFormat.beamCount]
    by_cases hlen : c.lasers.length = 32
    · rw [if_pos hlen]
      refine ⟨⟨fun _ => hlen, fun _ => ⟨_, rfl⟩⟩, fun k hk => ?_,
        fun hne => absurd hlen hne⟩
      injection hk with h
      subst h
      exact ⟨rfl, rfl, rfl⟩
    · rw [if_neg hlen]
      refine ⟨⟨fun h => ?_, fun h => absurd h hlen⟩,
        fun k hk => absurd hk (fun hh => nomatch hh), fun _ => rfl⟩
      obtain ⟨k, hk⟩ := h
      exact absurd hk (fun hh => nomatch hh)
  | Dual16 =>
    simp only [ConverterKind.from_config, hf, FiringFormat.beamCount]
    by_cases hlen : c.lasers.length = 16
    · rw [if_pos hlen]
      refine ⟨⟨fun _ => hlen, fun _ => ⟨_, rfl⟩⟩, fun k hk => ?_,
        fun hne => absurd hlen hne⟩
      injection hk with h
      subst h
      exact ⟨rfl, rfl, rfl⟩
    · rw [if_neg hlen]
      refine ⟨⟨fun h => ?_, fun h => absurd h hlen⟩,
        fun k hk => absurd hk (fun hh => nomatch hh), fun _ => rfl⟩
      obtain ⟨k, hk⟩ := h
      exact absurd hk (fun hh => nomatch hh)
  | Dual32 =>
    simp only [ConverterKind.from_config, hf, FiringFormat.beamCount]
    by_cases hlen : c.lasers.length = 32
    · rw [if_pos hlen]
      refine ⟨⟨fun _ => hlen, fun _ => ⟨_, rfl⟩⟩, fun k hk => ?_,
        fun hne => absurd hlen hne⟩
      injection hk with h
      subst h
      exact ⟨rfl, rfl, rfl⟩
    · rw [if_neg hlen]
      refine ⟨⟨fun h => ?_, fun h => absurd h hlen⟩,
        fun k hk => absurd hk (fun hh => nomatch hh), fun _ => rfl⟩
      obtain ⟨k, hk⟩ := h
      exact absurd hk (fun hh => nomatch hh)

/-- Witness for C6: a well-formed 16-laser Single16 config is accepted and its
converter carries the given lasers and resolution. -/
theorem from_config_spec_witness :
    ConverterKind.from_config exConfigS16
      = .ok (.Single16 ⟨List.replicate 16 exLaser, 1⟩) ∧
    exConfigS16.lasers.length = exConfigS16.firing_format.beamCount ∧
    ((ConverterKind.Single16 ⟨List.replicate 16 exLaser, 1⟩).firing_format
        = exConfigS16.firing_format ∧
      (ConverterKind.Single16 ⟨List.replicate 16 exLaser, 1⟩).lasersOf
        = exConfigS16.lasers ∧
      (ConverterKind.Single16 ⟨List.replicate 16 exLaser, 1⟩).resolutionOf
        = exConfigS16.distance_resolution) := by
  have h : ConverterKind.from_config exConfigS16
      = .ok (.Single16 ⟨List.replicate 16 exLaser, 1⟩) := rfl
  exact ⟨h, (from_config_spec exConfigS16).1.mp ⟨_, h⟩,
    (from_config_spec exConfigS16).2.1 _ h⟩

/-- Counterexample for C6 as stated: a config with a correct 16-entry laser
table but distance resolution 0 (≤ 0) is accepted by `from_config` — no
`ConfigInvalid` error — contradicting the claim that a non-positive
resolution is rejected. -/
theorem from_config_zero_resolution_accepted :
    exConfigZeroRes.distance_resolution ≤ 0 ∧
    exConfigZeroRes.lasers.length = exConfigZeroRes.firing_format.beamCount ∧
    ConverterKind.from_config exConfigZeroRes
      = .ok (.Single16 ⟨List.replicate 16 exLaser, 0⟩) :=
  ⟨le_of_eq rfl, rfl, rfl⟩

/-- C7: `ConverterKind::firing_to_firing_xyz` converts exactly when the firing
variant matches the converter variant (returning a projected firing of the
same variant), and on any mismatch reports the error carrying the unconsumed
firing back to the caller. -/
theorem converter_dispatch_spec (ck : ConverterKind) (f : FiringKind) :
    (ck.firing_format = f.format →
      ∃ fx, ck.firing_to_firing_xyz f = .ok fx ∧
        fx.format = ck.firing_format) ∧
    (ck.firing_format ≠ f.format →
      ck.firing_to_firing_xyz f = .error f) := by
  cases ck <;> cases f <;>
    refine ⟨fun h => ?_, fun h => ?_⟩ <;>
      first
        | exact ⟨_, rfl, rfl⟩
        | exact absurd rfl h
        | rfl
        | simp [ConverterKind.firing_format, FiringKind.format] at h

/-- Witness for C7: a Single16 converter accepts a Single16 firing and
rejects a Single32 firing, returning it unchanged. -/
theorem converter_dispatch_spec_witness :
    ((ConverterKind.Single16 exConvS16).firing_format
        = (FiringKind.Single16 exFiringS16).format ∧
      ∃ fx, (ConverterKind.Single16 exConvS16).firing_to_firing_xyz
          (.Single16 exFiringS16) = .ok fx ∧
        fx.format = (ConverterKind.Single16 exConvS16).firing_format) ∧
    ((ConverterKind.Single16 exConvS16).firing_format
        ≠ (FiringKind.Single32 exFiringS32).format ∧
      (ConverterKind.Single16 exConvS16).firing_to_firing_xyz
          (.Single32 exFiringS32) = .error (.Single32 exFiringS32)) := by
  have h1 : (ConverterKind.Single16 exConvS16).firing_format
      = (FiringKind.Single16 exFiringS16).format := rfl
  have h2 : (ConverterKind.Single16 exConvS16).firing_format
      ≠ (FiringKind.Single32 exFiringS32).format := by
    simp [ConverterKind.firing_format, FiringKind.format]
  exact ⟨⟨h1, (converter_dispatch_spec _ _).1 h1⟩,
    ⟨h2, (converter_dispatch_spec _ _).2 h2⟩⟩

/-- C8: on every frame with at least one firing, `azimuth_range()` is the
range from the first firing's start azimuth to the last firing's end azimuth,
in all four variants. -/
theorem frame_azimuth_range_spec :
    (∀ (f : FrameXyzS16) (h : f.firings ≠ []),
      f.azimuthRange? = some ⟨(f.firings.head h).azimuth_range.start,
        (f.firings.getLast h).azimuth_range.stop⟩) ∧
    (∀ (f : FrameXyzS32) (h : f.firings ≠ []),
      f.azimuthRange? = some ⟨(f.firings.head h).azimuth_range.start,
        (f.firings.getLast h).azimuth_range.stop⟩) ∧
    (∀ (f : FrameXyzD16) (h : f.firings ≠ []),
      f.azimuthRange? = some ⟨(f.firings.head h).azimuth_range.start,
        (f.firings.getLast h).azimuth_range.stop⟩) ∧
    (∀ (f : FrameXyzD32) (h : f.firings ≠ []),
      f.azimuthRange? = some ⟨(f.firings.head h).azimuth_range.start,
        (f.firings.getLast h).azimuth_range.stop⟩) := by
  refine ⟨?_, ?_, ?_, ?_⟩
  · intro f h
    simp [FrameXyzS16.azimuthRange?, List.head?_eq_head h,
      List.getLast?_eq_getLast_of_ne_nil h]
  · intro f h
    simp [FrameXyzS32.azimuthRange?, List.head?_eq_head h,
      List.getLast?_eq_getLast_of_ne_nil h]
  · intro f h
    simp [FrameXyzD16.azimuthRange?, List.head?_eq_head h,
      List.getLast?_eq_getLast_of_ne_nil h]
  · intro f h
    simp [FrameXyzD32.azimuthRange?, List.head?_eq_head h,
      List.getLast?_eq_getLast_of_ne_nil h]

/-- Witness for C8: singleton frames of each variant have azimuth range
`⟨0, 1⟩`, from their firing's range `[0, 1)`. -/
theorem frame_azimuth_range_spec_witness :
    ((⟨[exFiringXyzS16]⟩ : FrameXyzS16).firings ≠ [] ∧
      (⟨[exFiringXyzS16]⟩ : FrameXyzS16).azimuthRange? = some ⟨0, 1⟩) ∧
    ((⟨[exFiringXyzS32]⟩ : FrameXyzS32).firings ≠ [] ∧
      (⟨[exFiringXyzS32]⟩ : FrameXyzS32).azimuthRange? = some ⟨0, 1⟩) ∧
    ((⟨[exFiringXyzD16]⟩ : FrameXyzD16).firings ≠ [] ∧
      (⟨[exFiringXyzD16]⟩ : FrameXyzD16).azimuthRange? = some ⟨0, 1⟩) ∧
    ((⟨[exFiringXyzD32]⟩ : FrameXyzD32).firings ≠ [] ∧
      (⟨[exFiringXyzD32]⟩ : FrameXyzD32).azimuthRange? = some ⟨0, 1⟩) :=
  ⟨⟨List.cons_ne_nil _ _,
    frame_azimuth_range_spec.1 _ (List.cons_ne_nil _ _)⟩,
   ⟨List.cons_ne_nil _ _,
    frame_azimuth_range_spec.2.1 _ (List.cons_ne_nil _ _)⟩,
   ⟨List.cons_ne_nil _ _,
    frame_azimuth_range_spec.2.2.1 _ (List.cons_ne_nil _ _)⟩,
   ⟨List.cons_ne_nil _ _,
    frame_azimuth_range_spec.2.2.2 _ (List.cons_ne_nil _ _)⟩⟩

end Lidar
